import Mathlib

/-!
Verification development for the ModelEngine-Model repository.

The repository ships a declarative ontology schema (an XML document with
Class / Attribute / Reference / Collection elements), an XSD meta-schema
with a format-description text, a browser terminal front end, and a React
dashboard.  This file embeds those artifacts shallowly:

* the shipped schema document is transcribed element-by-element into the
  list `shippedClasses`;
* the XSD content model of a class element and its dataType enumeration
  are transcribed into `xsdAcceptsClassChildren` and `dataTypeFacets`;
* the terminal handler and table renderer of flask/static/js/app.js are
  translated into `term` and `updateObjectsTable`;
* the Dashboard's `handleToggle` and `handleDatabaseActions` are
  translated into functions of the same names;
* the Reference Integrity Engine (core.py is not among the sources; only
  its spec is) is modelled from the spec as an edge-set state machine.
-/

namespace ModelEngine

/-- An Attribute element of the schema document: a `type` attribute, the
optional `is_key` flag (absent means false), the `required` flag, and the
element text, which is the attribute's name. -/
structure AttributeEl where
  attrType : String
  isKey : Bool
  required : Bool
  attrName : String
  deriving DecidableEq, Repr

/-- A Reference element of the schema document: `type` names the target
class, `multiplicity` is the string "mono" or "multi", `required` a flag,
`inverse` an optional reference name on the target class, and the element
text is the reference's own name. -/
structure ReferenceEl where
  refType : String
  multiplicity : String
  required : Bool
  inverse : Option String
  refName : String
  deriving DecidableEq, Repr

/-- A Class element of the schema document: `name` and the optional
`is_abstract` flag (absent means false) and `extends` attribute, the list
of Collection child texts, and the ordered Attribute and Reference
children. -/
structure ClassEl where
  className : String
  isAbstract : Bool
  extendsName : Option String
  collections : List String
  attributes : List AttributeEl
  references : List ReferenceEl
  deriving DecidableEq, Repr

/-- The abstract ModelObject class of the shipped schema document. -/
def modelObjectClass : ClassEl :=
  { className := "ModelObject", isAbstract := true, extendsName := none
    collections := []
    attributes :=
      [ { attrType := "datetime", isKey := false, required := false, attrName := "active_from" }
      , { attrType := "datetime", isKey := false, required := false, attrName := "active_until" } ]
    references := [] }

/-- The Unit class of the shipped schema document. -/
def unitClass : ClassEl :=
  { className := "Unit", isAbstract := false, extendsName := none
    collections := ["Meta"]
    attributes :=
      [ { attrType := "text", isKey := true, required := true, attrName := "name" } ]
    references := [] }

/-- The Value class of the shipped schema document. -/
def valueClass : ClassEl :=
  { className := "Value", isAbstract := false, extendsName := none
    collections := ["Meta"]
    attributes :=
      [ { attrType := "text", isKey := true, required := true, attrName := "identifier" }
      , { attrType := "float", isKey := false, required := true, attrName := "value" } ]
    references :=
      [ { refType := "Unit", multiplicity := "mono", required := true, inverse := none, refName := "unit" }
      , { refType := "ModelObject", multiplicity := "mono", required := false, inverse := none, refName := "used_in" } ] }

/-- The Resource class of the shipped schema document. -/
def resourceClass : ClassEl :=
  { className := "Resource", isAbstract := false, extendsName := none
    collections := ["Base"]
    attributes :=
      [ { attrType := "text", isKey := true, required := true, attrName := "name" } ]
    references :=
      [ { refType := "Unit", multiplicity := "mono", required := true, inverse := none, refName := "unit_default" } ] }

/-- The Region class of the shipped schema document. -/
def regionClass : ClassEl :=
  { className := "Region", isAbstract := false, extendsName := some "ModelObject"
    collections := ["Macro"]
    attributes :=
      [ { attrType := "text", isKey := true, required := true, attrName := "name" }
      , { attrType := "int", isKey := false, required := false, attrName := "osm_id" } ]
    references :=
      [ { refType := "Region", multiplicity := "multi", required := false
          inverse := some "parents", refName := "direct_constituents" }
      , { refType := "Region", multiplicity := "multi", required := false
          inverse := none, refName := "parents" } ] }

/-- The Place class of the shipped schema document. -/
def placeClass : ClassEl :=
  { className := "Place", isAbstract := false, extendsName := some "ModelObject"
    collections := ["Micro"]
    attributes :=
      [ { attrType := "text", isKey := true, required := true, attrName := "identifier" }
      , { attrType := "int", isKey := false, required := false, attrName := "osm_id" }
      , { attrType := "pos_geo", isKey := false, required := true, attrName := "location" } ]
    references :=
      [ { refType := "Region", multiplicity := "multi", required := false, inverse := none, refName := "in_region" }
      , { refType := "Resource", multiplicity := "multi", required := false, inverse := none, refName := "processed_resources" }
      , { refType := "Conduit", multiplicity := "multi", required := false
          inverse := some "target", refName := "conduits_in" }
      , { refType := "Conduit", multiplicity := "multi", required := false
          inverse := some "origin", refName := "conduits_out" } ] }

/-- The Conduit class of the shipped schema document. -/
def conduitClass : ClassEl :=
  { className := "Conduit", isAbstract := false, extendsName := some "ModelObject"
    collections := ["Micro"]
    attributes :=
      [ { attrType := "text", isKey := true, required := true, attrName := "identifier" } ]
    references :=
      [ { refType := "Resource", multiplicity := "mono", required := true, inverse := none, refName := "transmits_resource" }
      , { refType := "Value", multiplicity := "mono", required := true, inverse := none, refName := "capacity" }
      , { refType := "Place", multiplicity := "mono", required := true
          inverse := some "conduits_out", refName := "origin" }
      , { refType := "Place", multiplicity := "mono", required := true
          inverse := some "conduits_in", refName := "target" } ] }

/-- The shipped schema document: the ordered Class elements under the
Classes root. -/
def shippedClasses : List ClassEl :=
  [ modelObjectClass, unitClass, valueClass, resourceClass
  , regionClass, placeClass, conduitClass ]

/-- Look a class up by name in the shipped schema document. -/
def findClass (n : String) : Option ClassEl :=
  shippedClasses.find? (fun c => c.className = n)

/-- Reference definitions of a class together with those of all its
ancestors along the single-parent extends chain.  The fuel bounds the
chain length; ancestors' definitions come first. -/
def flatRefsFuel : Nat → String → List ReferenceEl
  | 0, _ => []
  | fuel + 1, n =>
    match findClass n with
    | none => []
    | some c =>
      (match c.extendsName with
       | some p => flatRefsFuel fuel p
       | none => []) ++ c.references

/-- The flattened reference field table of a class of the shipped schema:
own reference definitions plus all inherited ones. -/
def flattenedRefs (n : String) : List ReferenceEl :=
  flatRefsFuel shippedClasses.length n

/-- Whether a reference declared in class `c`, if it names an inverse, has
in the flattened field table of its target class a reciprocal reference of
that name whose own inverse points back at it and whose target is the
declaring class. -/
def refHasReciprocal (c : ClassEl) (r : ReferenceEl) : Bool :=
  match r.inverse with
  | none => true
  | some invName =>
    (flattenedRefs r.refType).any fun r2 =>
      r2.refName = invName && r2.inverse = some r.refName && r2.refType = c.className

/-- The weakening of `refHasReciprocal` that does not ask the reciprocal
reference to declare an inverse of its own: the target class's flattened
table must merely contain a reference of the declared inverse name whose
target is the declaring class. -/
def refHasWeakReciprocal (c : ClassEl) (r : ReferenceEl) : Bool :=
  match r.inverse with
  | none => true
  | some invName =>
    (flattenedRefs r.refType).any fun r2 =>
      r2.refName = invName && r2.refType = c.className

/-- The first declared reference of the Region class,
direct_constituents. -/
def directConstituentsRef : ReferenceEl :=
  { refType := "Region", multiplicity := "multi", required := false
    inverse := some "parents", refName := "direct_constituents" }

/-- The kinds of child element the meta-schema allows inside a class
element: Attribute, Reference and Collection. -/
inductive ClassChild
  | attrEl
  | refEl
  | collEl
  deriving DecidableEq, Repr

/-- Acceptance of a class element's child sequence by the XSD meta-schema:
an xs:sequence of Attribute (minOccurs 0, maxOccurs unbounded), then
Reference (minOccurs 0, maxOccurs unbounded), then Collection (minOccurs
0, maxOccurs unbounded). -/
def xsdAcceptsClassChildren (l : List ClassChild) : Bool :=
  ((((l.dropWhile fun c => c = ClassChild.attrEl).dropWhile
      fun c => c = ClassChild.refEl).dropWhile
      fun c => c = ClassChild.collEl)).isEmpty

/-- The enumeration facets of the XSD simple type dataType, in document
order. -/
def dataTypeFacets : List String :=
  ["text", "int", "float", "boolean", "datetime", "pos_geo"]

/-- Whether a value of the type attribute of an Attribute element is
accepted by the meta-schema's dataType restriction. -/
def acceptsDataType (s : String) : Bool :=
  s ∈ dataTypeFacets

/-- A row inserted into the objects table by the front end: either a
section header spanning both columns, or a two-cell object row. -/
inductive Row
  | header (sectionName : String)
  | cells (c1 c2 : String)
  deriving DecidableEq, Repr

/-- One object entry of a section of the execute response's objects
field. -/
structure ObjEntry where
  name : String
  content : String
  deriving DecidableEq, Repr

/-- The JSON body the terminal handler stringifies for the execute
endpoint. -/
structure CommandBody where
  command : String
  deriving DecidableEq, Repr

/-- A POST request issued by the page: target URL and JSON body. -/
structure Request where
  url : String
  body : CommandBody
  deriving DecidableEq, Repr

/-- The body of the outer loop of updateObjectsTable in app.js: for one
section it inserts a section-header row, then one row per object. -/
def renderSection (tbl : List Row) (sec : String × List ObjEntry) : List Row :=
  (tbl ++ [Row.header sec.1]) ++ sec.2.map fun o => Row.cells o.name o.content

/-- updateObjectsTable of app.js: clears the objects table, then renders
every section of the objects payload in order. -/
def updateObjectsTable (objects : List (String × List ObjEntry)) : List Row :=
  objects.foldl renderSection []

/-- The decoded JSON payload of an execute response: the result text and
the objects grouped into sections. -/
structure RespData where
  result : String
  objects : List (String × List ObjEntry)

/-- The observable effect of one invocation of the terminal handler: the
requests it issued, the lines echoed, the error lines printed, and the
table contents after updateObjectsTable (none when the table was not
touched). -/
structure TermEffect where
  requests : List Request
  echoed : List String
  errored : List String
  table : Option (List Row)

/-- The terminal handler of app.js: a non-empty command is POSTed once to
the execute URL as a JSON body, then the response's result field is echoed
and the objects table re-rendered; if the fetch or decode throws, an error
line is printed instead.  The empty command only echoes an empty line. -/
def term (executeURL command : String) (outcome : Option RespData) : TermEffect :=
  if command ≠ "" then
    match outcome with
    | some data =>
      { requests := [{ url := executeURL, body := { command := command } }]
        echoed := [data.result], errored := []
        table := some (updateObjectsTable data.objects) }
    | none =>
      { requests := [{ url := executeURL, body := { command := command } }]
        echoed := [], errored := ["An error occurred while executing the command."]
        table := none }
  else
    { requests := [], echoed := [""], errored := [], table := none }

/-- One element of the actions array the Dashboard sends to the
component-set-state endpoint. -/
structure CAction where
  component : String
  action : String
  deriving DecidableEq, Repr

/-- handleToggle of Dashboard.js: builds the actions array for the toggled
component from the current activity flags and sends it in one request; the
default switch branch logs an error and sends nothing, modelled as
none. -/
def handleToggle (toggled : String)
    (specsActive runtimeActive databaseActive interpreterActive : Bool) :
    Option (List CAction) :=
  let activate := fun (c : String) => CAction.mk c "start"
  let deactivate := fun (c : String) => CAction.mk c "stop"
  if toggled = "specs" then
    some (if specsActive then
            (if interpreterActive then [deactivate "interpreter"] else []) ++
            (if databaseActive then [deactivate "database"] else []) ++
            [deactivate "specs"]
          else [activate "specs"])
  else if toggled = "runtime" then
    some (if runtimeActive then
            (if interpreterActive then [deactivate "interpreter"] else []) ++
            (if databaseActive then [deactivate "database"] else []) ++
            [deactivate "runtime"]
          else [activate "runtime"])
  else if toggled = "database" then
    some (if databaseActive then
            (if interpreterActive then [deactivate "interpreter"] else []) ++
            [deactivate "database"]
          else
            (if !specsActive then [activate "specs"] else []) ++
            (if !runtimeActive then [activate "runtime"] else []) ++
            [activate "database"])
  else if toggled = "interpreter" then
    some (if interpreterActive then [deactivate "interpreter"]
          else
            (if !specsActive then [activate "specs"] else []) ++
            (if !runtimeActive then [activate "runtime"] else []) ++
            (if !databaseActive then [activate "database"] else []) ++
            [activate "interpreter"])
  else none

/-- The component names the Dashboard's toggle switch recognizes. -/
def knownComponents : List String :=
  ["specs", "runtime", "database", "interpreter"]

/-- The dependency table realized by handleToggle: the components a given
component activates first when it starts, in specs-runtime-database
order. -/
def depsOf (c : String) : List String :=
  if c = "database" then ["specs", "runtime"]
  else if c = "interpreter" then ["specs", "runtime", "database"]
  else []

/-- The dependent table realized by handleToggle: the components a given
component deactivates first when it stops, in interpreter-database
order. -/
def dependentsOf (c : String) : List String :=
  if c = "specs" then ["interpreter", "database"]
  else if c = "runtime" then ["interpreter", "database"]
  else if c = "database" then ["interpreter"]
  else []

/-- The activity flag of a named component, from the Dashboard's four
state booleans. -/
def activeFlag (c : String)
    (specsActive runtimeActive databaseActive interpreterActive : Bool) : Bool :=
  if c = "specs" then specsActive
  else if c = "runtime" then runtimeActive
  else if c = "database" then databaseActive
  else if c = "interpreter" then interpreterActive
  else false

/-- The outcome of the fetch performed by a Dashboard database action: the
promise threw, or a response arrived with its ok flag and decoded JSON
data. -/
inductive FetchOutcome (σ : Type)
  | thrown
  | response (ok : Bool) (data : σ)
  deriving DecidableEq

/-- The tail of handleDatabaseActions after the endpoint was chosen: the
endpoint is fetched once; only an ok response feeds its decoded data to
processStatusResponse. -/
def dbFetch {σ : Type} (endp : String) (outcome : FetchOutcome σ) :
    Option String × Option σ :=
  (some endp,
   match outcome with
   | FetchOutcome.response true d => some d
   | _ => none)

/-- handleDatabaseActions of Dashboard.js: the wipe action maps to the
db-wipe endpoint and setup to db-init, each POSTed once; any other action
logs an error and returns before fetching.  The first component is the
endpoint requested (none means no request), the second the data handed to
processStatusResponse (none means no component-state update). -/
def handleDatabaseActions {σ : Type} (backendURL action : String)
    (outcome : FetchOutcome σ) : Option String × Option σ :=
  if action = "wipe" then dbFetch (backendURL ++ "/db-wipe") outcome
  else if action = "setup" then dbFetch (backendURL ++ "/db-init") outcome
  else (none, none)

/-- Modelled from the spec: the Reference Integrity Engine (core.py, the
model-code runtime mounted by docker-compose, is not among the repository
sources; only the spec's section 4.4 describes it).  The model state is
the list of directed reference edges (owner, reference name, value): an
object b is in a's slot r exactly when the edge (a, r, b) is present. -/
abbrev RefState (α ρ : Type) : Type :=
  List (α × ρ × α)

/-- Modelled from the spec: the edge holding the mirror-image fact of an
edge, under the declared inverse naming. -/
def revEdge {α ρ : Type} (inv : ρ → ρ) (e : α × ρ × α) : α × ρ × α :=
  (e.2.2, inv e.2.1, e.1)

/-- Modelled from the spec: record an edge unless it is already present
(multi slots are sets; re-linking is idempotent). -/
def addEdge {α ρ : Type} [DecidableEq α] [DecidableEq ρ] (e : α × ρ × α)
    (s : RefState α ρ) : RefState α ρ :=
  if e ∈ s then s else e :: s

/-- Modelled from the spec: drop an edge wherever it occurs. -/
def removeEdge {α ρ : Type} [DecidableEq α] [DecidableEq ρ] (e : α × ρ × α)
    (s : RefState α ρ) : RefState α ρ :=
  s.filter fun x => x ≠ e

/-- Modelled from the spec: unlink(a, refName, b) removes b from a's slot
and a from b's inverse slot; removing a non-existent link is a no-op. -/
def unlinkOp {α ρ : Type} [DecidableEq α] [DecidableEq ρ] (inv : ρ → ρ)
    (a : α) (r : ρ) (b : α) (s : RefState α ρ) : RefState α ρ :=
  removeEdge (b, inv r, a) (removeEdge (a, r, b) s)

/-- Modelled from the spec: the values currently held by a's slot r. -/
def slotValues {α ρ : Type} [DecidableEq α] [DecidableEq ρ] (a : α) (r : ρ)
    (s : RefState α ρ) : List α :=
  (s.filter fun e => decide (e.1 = a ∧ e.2.1 = r)).map fun e => e.2.2

/-- Modelled from the spec: link(a, refName, b).  When r is mono, the
current value is displaced and its inverse detached first; then the edge
and its inverse edge are added together. -/
def linkOp {α ρ : Type} [DecidableEq α] [DecidableEq ρ] (inv : ρ → ρ)
    (isMono : ρ → Bool) (a : α) (r : ρ) (b : α) (s : RefState α ρ) :
    RefState α ρ :=
  let s1 := if isMono r then
      (slotValues a r s).foldl (fun st x => unlinkOp inv a r x st) s
    else s
  addEdge (revEdge inv (a, r, b)) (addEdge (a, r, b) s1)

/-- Modelled from the spec: detachAll on delete removes the object from
every reference slot pointing at it and drops its own slots (inverse-aware
sweep, detach not cascade). -/
def deleteOp {α ρ : Type} [DecidableEq α] [DecidableEq ρ] (o : α)
    (s : RefState α ρ) : RefState α ρ :=
  s.filter fun e => decide (e.1 ≠ o ∧ e.2.2 ≠ o)

/-- Modelled from the spec: the commands that may mutate reference
slots. -/
inductive RefCmd (α ρ : Type)
  | link (a : α) (r : ρ) (b : α)
  | unlink (a : α) (r : ρ) (b : α)
  | delete (o : α)

/-- Modelled from the spec: apply one command to the model state. -/
def applyCmd {α ρ : Type} [DecidableEq α] [DecidableEq ρ] (inv : ρ → ρ)
    (isMono : ρ → Bool) : RefCmd α ρ → RefState α ρ → RefState α ρ
  | RefCmd.link a r b, s => linkOp inv isMono a r b s
  | RefCmd.unlink a r b, s => unlinkOp inv a r b s
  | RefCmd.delete o, s => deleteOp o s

/-- Modelled from the spec: run a command sequence left to right. -/
def runCmds {α ρ : Type} [DecidableEq α] [DecidableEq ρ] (inv : ρ → ρ)
    (isMono : ρ → Bool) (cmds : List (RefCmd α ρ)) (s : RefState α ρ) :
    RefState α ρ :=
  cmds.foldl (fun st c => applyCmd inv isMono c st) s

/-- The symmetry invariant of the Reference Integrity Engine: b lies in
a's slot r exactly when a lies in b's slot inverse(r). -/
def Symm {α ρ : Type} (inv : ρ → ρ) (s : RefState α ρ) : Prop :=
  ∀ a r b, (a, r, b) ∈ s ↔ (b, inv r, a) ∈ s

/-- The symmetry invariant phrased over whole edges: a state is closed
under taking the mirror-image edge. -/
def SymmRev {α ρ : Type} (inv : ρ → ρ) (s : RefState α ρ) : Prop :=
  ∀ e, e ∈ s ↔ revEdge inv e ∈ s

theorem symm_iff_symmRev {α ρ : Type} (inv : ρ → ρ) (s : RefState α ρ) :
    Symm inv s ↔ SymmRev inv s := by
  constructor
  · intro h e
    obtain ⟨a, r, b⟩ := e
    exact h a r b
  · intro h a r b
    exact h (a, r, b)

theorem revEdge_revEdge {α ρ : Type} {inv : ρ → ρ}
    (hinv : Function.Involutive inv) (e : α × ρ × α) :
    revEdge inv (revEdge inv e) = e := by
  obtain ⟨a, r, b⟩ := e
  simp [revEdge, hinv r]

theorem revEdge_eq_iff {α ρ : Type} {inv : ρ → ρ}
    (hinv : Function.Involutive inv) (e f : α × ρ × α) :
    revEdge inv e = f ↔ e = revEdge inv f := by
  constructor
  · rintro rfl
    rw [revEdge_revEdge hinv]
  · rintro rfl
    rw [revEdge_revEdge hinv]

theorem mem_addEdge {α ρ : Type} [DecidableEq α] [DecidableEq ρ]
    (e x : α × ρ × α) (s : RefState α ρ) :
    x ∈ addEdge e s ↔ x = e ∨ x ∈ s := by
  by_cases h : e ∈ s
  · simp only [addEdge, if_pos h]
    exact ⟨Or.inr, fun hx => hx.elim (fun hxe => hxe ▸ h) id⟩
  · simp [addEdge, if_neg h, List.mem_cons]

theorem mem_removeEdge {α ρ : Type} [DecidableEq α] [DecidableEq ρ]
    (e x : α × ρ × α) (s : RefState α ρ) :
    x ∈ removeEdge e s ↔ x ∈ s ∧ x ≠ e := by
  simp [removeEdge, List.mem_filter]

theorem mem_unlinkOp {α ρ : Type} [DecidableEq α] [DecidableEq ρ]
    (inv : ρ → ρ) (a : α) (r : ρ) (b : α) (s : RefState α ρ) (x : α × ρ × α) :
    x ∈ unlinkOp inv a r b s ↔ x ∈ s ∧ x ≠ (a, r, b) ∧ x ≠ (b, inv r, a) := by
  simp [unlinkOp, mem_removeEdge, and_assoc]

theorem symmRev_unlinkOp {α ρ : Type} [DecidableEq α] [DecidableEq ρ]
    {inv : ρ → ρ} (hinv : Function.Involutive inv) {s : RefState α ρ}
    (h : SymmRev inv s) (a : α) (r : ρ) (b : α) :
    SymmRev inv (unlinkOp inv a r b s) := by
  intro e
  have h1 : revEdge inv e = (a, r, b) ↔ e = (b, inv r, a) := by
    rw [revEdge_eq_iff hinv]
    rfl
  have h2 : revEdge inv e = (b, inv r, a) ↔ e = (a, r, b) := by
    rw [show ((b : α), inv r, a) = revEdge inv (a, r, b) from rfl,
      revEdge_eq_iff hinv, revEdge_revEdge hinv]
  simp only [mem_unlinkOp]
  constructor
  · rintro ⟨he, hn1, hn2⟩
    exact ⟨(h e).1 he, fun hc => hn2 (h1.1 hc), fun hc => hn1 (h2.1 hc)⟩
  · rintro ⟨he, hn1, hn2⟩
    exact ⟨(h e).2 he, fun hc => hn2 (h2.2 hc), fun hc => hn1 (h1.2 hc)⟩

theorem symmRev_foldl_unlink {α ρ : Type} [DecidableEq α] [DecidableEq ρ]
    {inv : ρ → ρ} (hinv : Function.Involutive inv) (a : α) (r : ρ) :
    ∀ (xs : List α) (s : RefState α ρ), SymmRev inv s →
      SymmRev inv (xs.foldl (fun st x => unlinkOp inv a r x st) s)
  | [], _, h => h
  | x :: xs, s, h =>
    symmRev_foldl_unlink hinv a r xs (unlinkOp inv a r x s)
      (symmRev_unlinkOp hinv h a r x)

theorem symmRev_linkOp {α ρ : Type} [DecidableEq α] [DecidableEq ρ]
    {inv : ρ → ρ} (hinv : Function.Involutive inv) (isMono : ρ → Bool)
    {s : RefState α ρ} (h : SymmRev inv s) (a : α) (r : ρ) (b : α) :
    SymmRev inv (linkOp inv isMono a r b s) := by
  have hrevinv : Function.Involutive (revEdge (α := α) inv) :=
    fun e => revEdge_revEdge hinv e
  have hs1 : SymmRev inv (if isMono r then
      (slotValues a r s).foldl (fun st x => unlinkOp inv a r x st) s else s) := by
    by_cases hm : isMono r
    · rw [if_pos hm]
      exact symmRev_foldl_unlink hinv a r (slotValues a r s) s h
    · rwa [if_neg hm]
  intro e
  simp only [linkOp, mem_addEdge]
  rw [hrevinv.injective.eq_iff, revEdge_eq_iff hinv, ← hs1 e]
  tauto

theorem symmRev_deleteOp {α ρ : Type} [DecidableEq α] [DecidableEq ρ]
    {inv : ρ → ρ} {s : RefState α ρ} (h : SymmRev inv s) (o : α) :
    SymmRev inv (deleteOp o s) := by
  intro e
  simp only [deleteOp, List.mem_filter, decide_eq_true_eq]
  rw [← h e]
  constructor
  · rintro ⟨he, h1, h2⟩
    exact ⟨he, h2, h1⟩
  · rintro ⟨he, h1, h2⟩
    exact ⟨he, h2, h1⟩

theorem symmRev_applyCmd {α ρ : Type} [DecidableEq α] [DecidableEq ρ]
    {inv : ρ → ρ} (hinv : Function.Involutive inv) (isMono : ρ → Bool)
    {s : RefState α ρ} (h : SymmRev inv s) (c : RefCmd α ρ) :
    SymmRev inv (applyCmd inv isMono c s) := by
  cases c with
  | link a r b => exact symmRev_linkOp hinv isMono h a r b
  | unlink a r b => exact symmRev_unlinkOp hinv h a r b
  | delete o => exact symmRev_deleteOp h o

theorem symmRev_runCmds {α ρ : Type} [DecidableEq α] [DecidableEq ρ]
    {inv : ρ → ρ} (hinv : Function.Involutive inv) (isMono : ρ → Bool) :
    ∀ (cmds : List (RefCmd α ρ)) (s : RefState α ρ), SymmRev inv s →
      SymmRev inv (runCmds inv isMono cmds s)
  | [], _, h => h
  | c :: cmds, s, h =>
    symmRev_runCmds hinv isMono cmds (applyCmd inv isMono c s)
      (symmRev_applyCmd hinv isMono h c)

theorem symmRev_nil {α ρ : Type} (inv : ρ → ρ) :
    SymmRev inv ([] : RefState α ρ) := by
  intro e
  simp

theorem foldl_renderSection (objs : List (String × List ObjEntry)) (acc : List Row) :
    objs.foldl renderSection acc =
      acc ++ objs.flatMap fun sec =>
        Row.header sec.1 :: sec.2.map fun o => Row.cells o.name o.content := by
  induction objs generalizing acc with
  | nil => simp
  | cons sec rest ih =>
    simp [renderSection, ih, List.flatMap_cons, List.append_assoc]

/-- C1 counterexample: the claim fails on the shipped schema document.
Region.direct_constituents declares inverse parents, but the reference
named parents in Region's flattened field table carries no inverse
attribute at all, so no reciprocal reference points back at
direct_constituents. -/
theorem C1_counterexample :
    regionClass ∈ shippedClasses ∧
    directConstituentsRef ∈ regionClass.references ∧
    directConstituentsRef.inverse = some "parents" ∧
    refHasReciprocal regionClass directConstituentsRef = false := by
  decide

/-- C1 (amended): every reference of the shipped schema document that
declares an inverse name has, in the flattened field table of its target
class, a reference of that name whose target is the declaring class; the
reciprocal reference's own inverse points back for every such reference
except Region.direct_constituents, whose declared inverse Region.parents
carries no inverse attribute (so the Region pair is reciprocal by name and
target only, not by mutual inverse declarations). -/
theorem C1_amended_reciprocals :
    (shippedClasses.all fun c => c.references.all (refHasWeakReciprocal c)) = true ∧
    (shippedClasses.all fun c => c.references.all fun r =>
      (r.refName == "direct_constituents") || refHasReciprocal c r) = true ∧
    ((flattenedRefs "Region").any fun r2 =>
      r2.refName == "parents" && r2.refType == "Region" && r2.inverse == none) = true := by
  decide

/-- C2: for every involutive inverse assignment on reference names, after
any finite sequence of link, unlink and delete commands starting from the
empty model, an object b lies in a's slot r exactly when a lies in b's
slot inverse(r).  The Reference Integrity Engine is modelled from the
spec, core.py being absent from the sources. -/
theorem C2_inverse_symmetry {α ρ : Type} [DecidableEq α] [DecidableEq ρ]
    (inv : ρ → ρ) (isMono : ρ → Bool) (hinv : Function.Involutive inv)
    (cmds : List (RefCmd α ρ)) :
    Symm inv (runCmds inv isMono cmds ([] : RefState α ρ)) := by
  rw [symm_iff_symmRev]
  exact symmRev_runCmds hinv isMono cmds [] (symmRev_nil inv)

/-- Witness for C2: the symmetry invariant at concrete types, a concrete
involution and a concrete command sequence that links, relinks a mono
slot, unlinks and deletes. -/
theorem C2_inverse_symmetry_witness :
    Symm Bool.not (runCmds Bool.not (fun r => r)
      [RefCmd.link 1 true 2, RefCmd.link 1 true 3, RefCmd.unlink 2 false 1,
       RefCmd.link 2 false 3, RefCmd.delete 3]
      ([] : RefState Nat Bool)) :=
  C2_inverse_symmetry Bool.not (fun r => r) (fun b => Bool.not_not b) _

/-- C3: every non-abstract class of the shipped schema document declares
exactly one Attribute with is_key true, and that attribute has type text
and required true. -/
theorem C3_unique_text_key :
    (shippedClasses.all fun c =>
      c.isAbstract ||
        ((c.attributes.filter fun a => a.isKey).length == 1 &&
         c.attributes.all fun a => !a.isKey || (a.attrType == "text" && a.required))) = true := by
  decide

/-- C4: the claim is contradicted by the XSD meta-schema itself, which
gives Collection maxOccurs unbounded; a class element whose children are
two Collection elements is accepted, although the format description
demands exactly one Collection per (concrete) class. -/
theorem C4_xsd_accepts_two_collections :
    xsdAcceptsClassChildren [ClassChild.collEl, ClassChild.collEl] = true ∧
    [ClassChild.collEl, ClassChild.collEl].count ClassChild.collEl = 2 := by
  decide

/-- C5: the dataType restriction of the meta-schema accepts exactly the
six values text, int, float, boolean, datetime and pos_geo, and rejects
every other string. -/
theorem C5_datatype_enumeration (s : String) :
    acceptsDataType s = true ↔
      (s = "text" ∨ s = "int" ∨ s = "float" ∨ s = "boolean" ∨
       s = "datetime" ∨ s = "pos_geo") := by
  simp [acceptsDataType, dataTypeFacets]

/-- C6: in the shipped schema document a class declares a Collection
element exactly when it is not abstract — the abstract ModelObject class
declares none, every concrete class exactly one. -/
theorem C6_collection_iff_concrete :
    (shippedClasses.all fun c =>
      if c.isAbstract then c.collections.isEmpty else c.collections.length == 1) = true := by
  decide

/-- C7: for every non-empty command string, the terminal handler POSTs the
execute endpoint exactly once with a JSON body holding that command,
echoes the response's result field, and renders the returned objects
grouped per collection: one section-header row per group followed by one
row per object of the group. -/
theorem C7_terminal_execution (executeURL command : String) (data : RespData)
    (hne : command ≠ "") :
    (term executeURL command (some data)).requests =
        [{ url := executeURL, body := { command := command } }] ∧
    (term executeURL command (some data)).echoed = [data.result] ∧
    (term executeURL command (some data)).table =
        some (data.objects.flatMap fun sec =>
          Row.header sec.1 :: sec.2.map fun o => Row.cells o.name o.content) := by
  refine ⟨?_, ?_, ?_⟩ <;>
    simp [term, hne, updateObjectsTable, foldl_renderSection]

/-- Witness for C7 at a concrete command and response. -/
theorem C7_terminal_execution_witness :
    ("get Region R2" ≠ "") ∧
    ((term "u" "get Region R2"
        (some { result := "ok", objects := [("Macro", [{ name := "R2", content := "x" }])] })).requests =
      [{ url := "u", body := { command := "get Region R2" } }] ∧
     (term "u" "get Region R2"
        (some { result := "ok", objects := [("Macro", [{ name := "R2", content := "x" }])] })).echoed =
      ["ok"] ∧
     (term "u" "get Region R2"
        (some { result := "ok", objects := [("Macro", [{ name := "R2", content := "x" }])] })).table =
      some ([("Macro", [({ name := "R2", content := "x" } : ObjEntry)])].flatMap fun sec =>
        Row.header sec.1 :: sec.2.map fun o => Row.cells o.name o.content)) :=
  ⟨by decide,
   C7_terminal_execution "u" "get Region R2"
     { result := "ok", objects := [("Macro", [{ name := "R2", content := "x" }])] }
     (by decide)⟩

/-- C8: for the empty command string the terminal handler issues no
request to the execute endpoint, only echoes an empty string, and leaves
the objects table untouched, whatever the would-be fetch outcome. -/
theorem C8_empty_command (executeURL : String) (outcome : Option RespData) :
    term executeURL "" outcome =
      { requests := [], echoed := [""], errored := [], table := none } := by
  simp [term]

/-- C9: the Dashboard toggle handler sends, for an activation, the start
of each inactive dependency in specs-runtime-database order before the
start of the toggled component, and for a deactivation the stop of each
active dependent in interpreter-database order before the stop of the
toggled component; an unrecognized component name sends nothing.  The
dependency and dependent tables are sublists of those orders. -/
theorem C9_toggle_actions (toggled : String) (sa ra da ia : Bool) :
    handleToggle toggled sa ra da ia =
      (if toggled ∈ knownComponents then
        some (if activeFlag toggled sa ra da ia then
            ((dependentsOf toggled).filter fun c => activeFlag c sa ra da ia).map
              (fun c => CAction.mk c "stop") ++ [CAction.mk toggled "stop"]
          else
            ((depsOf toggled).filter fun c => !activeFlag c sa ra da ia).map
              (fun c => CAction.mk c "start") ++ [CAction.mk toggled "start"])
      else none) ∧
    (depsOf toggled).Sublist ["specs", "runtime", "database"] ∧
    (dependentsOf toggled).Sublist ["interpreter", "database"] := by
  by_cases h1 : toggled = "specs"
  · subst h1
    revert sa ra da ia
    decide
  by_cases h2 : toggled = "runtime"
  · subst h2
    revert sa ra da ia
    decide
  by_cases h3 : toggled = "database"
  · subst h3
    revert sa ra da ia
    decide
  by_cases h4 : toggled = "interpreter"
  · subst h4
    revert sa ra da ia
    decide
  · refine ⟨?_, ?_, ?_⟩ <;>
      simp [handleToggle, knownComponents, depsOf, dependentsOf, h1, h2, h3, h4]

/-- C10: the Dashboard database-action handler issues a request exactly
for the wipe and setup actions, mapping wipe to the db-wipe endpoint and
setup to db-init; any other action string, and any non-ok or thrown
response, leaves the component state not updated. -/
theorem C10_database_actions {σ : Type} (backendURL action : String)
    (outcome : FetchOutcome σ) :
    ((handleDatabaseActions backendURL action outcome).1 ≠ none ↔
        (action = "wipe" ∨ action = "setup")) ∧
    (action = "wipe" →
        (handleDatabaseActions backendURL action outcome).1 =
          some (backendURL ++ "/db-wipe")) ∧
    (action = "setup" →
        (handleDatabaseActions backendURL action outcome).1 =
          some (backendURL ++ "/db-init")) ∧
    (¬(action = "wipe" ∨ action = "setup") →
        handleDatabaseActions backendURL action outcome = (none, none)) ∧
    (∀ d : σ, outcome = FetchOutcome.response false d →
        (handleDatabaseActions backendURL action outcome).2 = none) ∧
    (outcome = FetchOutcome.thrown →
        (handleDatabaseActions backendURL action outcome).2 = none) := by
  by_cases hw : action = "wipe"
  · subst hw
    refine ⟨by simp [handleDatabaseActions, dbFetch], fun _ => by
        simp [handleDatabaseActions, dbFetch], fun h => absurd h (by decide),
      fun h => absurd (Or.inl rfl) h, ?_, ?_⟩
    · rintro d rfl
      simp [handleDatabaseActions, dbFetch]
    · rintro rfl
      simp [handleDatabaseActions, dbFetch]
  by_cases hs : action = "setup"
  · subst hs
    refine ⟨by simp [handleDatabaseActions, dbFetch], fun h => absurd h (by decide),
      fun _ => by simp [handleDatabaseActions, dbFetch],
      fun h => absurd (Or.inr rfl) h, ?_, ?_⟩
    · rintro d rfl
      simp [handleDatabaseActions, dbFetch]
    · rintro rfl
      simp [handleDatabaseActions, dbFetch]
  · refine ⟨by simp [handleDatabaseActions, hw, hs], fun h => absurd h hw,
      fun h => absurd h hs, fun _ => by simp [handleDatabaseActions, hw, hs], ?_, ?_⟩
    · rintro d rfl
      simp [handleDatabaseActions, hw, hs]
    · rintro rfl
      simp [handleDatabaseActions, hw, hs]

/-- Witness for C10 at concrete actions and outcomes. -/
theorem C10_database_actions_witness :
    (handleDatabaseActions "u" "wipe" (FetchOutcome.response true (0 : Nat))).1 =
        some ("u" ++ "/db-wipe") ∧
    (handleDatabaseActions "u" "setup" (FetchOutcome.response true (0 : Nat))).1 =
        some ("u" ++ "/db-init") ∧
    handleDatabaseActions "u" "other" (FetchOutcome.response true (0 : Nat)) =
        (none, none) ∧
    (handleDatabaseActions "u" "wipe" (FetchOutcome.response false (0 : Nat))).2 = none ∧
    (handleDatabaseActions "u" "wipe" (FetchOutcome.thrown : FetchOutcome Nat)).2 = none :=
  ⟨(C10_database_actions "u" "wipe" (FetchOutcome.response true 0)).2.1 rfl,
   (C10_database_actions "u" "setup" (FetchOutcome.response true 0)).2.2.1 rfl,
   (C10_database_actions "u" "other" (FetchOutcome.response true 0)).2.2.2.1 (by decide),
   (C10_database_actions "u" "wipe" (FetchOutcome.response false 0)).2.2.2.2.1 0 rfl,
   (C10_database_actions "u" "wipe" FetchOutcome.thrown).2.2.2.2.2 rfl⟩

end ModelEngine
